import Mathlib

/-!
Shallow embedding of `src/tuya_tiny_web/main.py` (tuya-tiny-web): the device
catalog, location handling, scan coordination and route handlers, together
with theorems settling the specification claims.

The Python module keeps two globals: `devices` (a dict loaded from a JSON
file, mapping device id to an info dict) and `scanning` (a bool flag).  We
model the JSON file abstractly (missing / malformed / parsed catalog), the
info dicts as a structure over the four keys the program uses, Python
exceptions as an inductive error type, and Python truthiness explicitly.
-/

namespace TuyaTinyWeb

instance {ε α : Type} [DecidableEq ε] [DecidableEq α] : DecidableEq (Except ε α) := fun a b =>
  match a, b with
  | Except.error e₁, Except.error e₂ => decidable_of_iff (e₁ = e₂) (by simp)
  | Except.error _, Except.ok _ => Decidable.isFalse (by simp)
  | Except.ok _, Except.error _ => Decidable.isFalse (by simp)
  | Except.ok v₁, Except.ok v₂ => decidable_of_iff (v₁ = v₂) (by simp)

/-- Python exception kinds raised by the source: `KeyError` (missing dict
key or unknown device id), `RuntimeError` (no IP), `OSError` (file missing
or unreadable in `open`), and `json.JSONDecodeError` (malformed file). -/
inductive PyErr where
  | keyError (msg : String)
  | runtimeError (msg : String)
  | osError
  | jsonDecodeError
deriving DecidableEq

/-- One catalog entry: the per-device JSON object.  The source reads the
keys `ip`, `local_key` and `version`; `name` is declared by the README and
present in catalog files but never read by the code. -/
structure DevInfo where
  name : Option String
  ip : Option String
  local_key : Option String
  version : Option String
deriving DecidableEq

/-- The in-memory `devices` dict: an insertion-ordered mapping from device
id to entry, as a key-unique association list. -/
abbrev Catalog := List (String × DevInfo)

/-- Python `dict.get` / `dict[k]` lookup: first (unique) matching key. -/
def lookupKey {α : Type} : List (String × α) → String → Option α
  | [], _ => none
  | (k, v) :: rest, key => if k = key then some v else lookupKey rest key

/-- Python truthiness of `dict.get(k)` on a string-valued key: `None` and
the empty string are falsy, any other string is truthy. -/
def optStrFalsy : Option String → Bool
  | none => true
  | some s => s.isEmpty

/-- Python `a or b` on optional strings: the first truthy operand, else `b`. -/
def pyOr (a b : Option String) : Option String :=
  if optStrFalsy a then b else a

/-- Python truthiness of an entry dict (`if not dev_info`): a dict is falsy
exactly when it is empty, i.e. all modelled keys absent. -/
def DevInfo.isFalsy (d : DevInfo) : Bool :=
  d.name.isNone && d.ip.isNone && d.local_key.isNone && d.version.isNone

/-- Update that the scan loop performs on an entry:
`devices[dev_id]["ip"] = dev["ip"]`. -/
def DevInfo.setIp (d : DevInfo) (newIp : String) : DevInfo :=
  ⟨d.name, some newIp, d.local_key, d.version⟩

/-- The on-disk devices file as the program can observe it: absent or
unreadable, readable but not valid JSON, or parsed into a catalog. -/
inductive FileContent where
  | missing
  | malformed
  | parsed (entries : Catalog)

/-- `open(devices_file)` followed by `json.load(f)`: raises `OSError` on a
missing or unreadable file and `JSONDecodeError` on malformed content,
otherwise yields the parsed mapping. -/
def parseFile : FileContent → Except PyErr Catalog
  | FileContent.missing => Except.error PyErr.osError
  | FileContent.malformed => Except.error PyErr.jsonDecodeError
  | FileContent.parsed c => Except.ok c

/-- `load_devices()` as an expression: the parsed catalog or the propagated
exception. -/
def load_devices (file : FileContent) : Except PyErr Catalog :=
  parseFile file

/-- `load_devices()` as a state transformer on the global `devices`.  The
body is `devices = json.load(f)`: the assignment happens only after
`json.load` returns, so a raising load leaves `devices` untouched and the
exception is surfaced (second component). -/
def load_devices_state (file : FileContent) (devices : Catalog) :
    Catalog × Option PyErr :=
  match parseFile file with
  | Except.error e => (devices, some e)
  | Except.ok c => (c, none)

/-- The handle built at the end of `get_device_instance`: the arguments
passed to `tinytuya.OutletDevice(dev_id, ip, local_key, version=version)`. -/
structure DeviceHandle where
  dev_id : String
  ip : String
  local_key : String
  version : String
deriving DecidableEq

/-- `get_device_instance(dev_id, ip=None)`: reloads the catalog, looks the
identifier up as a device id (`devices.get(dev_id)`), raises `KeyError` when
absent or the entry dict is falsy, computes `ip = ip or dev_info.get("ip")`,
raises `RuntimeError` when that is falsy, reads `dev_info["local_key"]`
(raising `KeyError` when absent) and `dev_info.get("version", "3.4")`. -/
def get_device_instance (file : FileContent) (dev_id : String)
    (ip0 : Option String) : Except PyErr DeviceHandle :=
  match load_devices file with
  | Except.error e => Except.error e
  | Except.ok devices =>
    match lookupKey devices dev_id with
    | none => Except.error (PyErr.keyError ("Device ID " ++ dev_id ++ " not found"))
    | some dev_info =>
      if dev_info.isFalsy then
        Except.error (PyErr.keyError ("Device ID " ++ dev_id ++ " not found"))
      else
        let ip := pyOr ip0 dev_info.ip
        if optStrFalsy ip then
          Except.error (PyErr.runtimeError ("No IP for device " ++ dev_id))
        else
          match dev_info.local_key with
          | none => Except.error (PyErr.keyError "local_key")
          | some key =>
            Except.ok ⟨dev_id, ip.getD "", key, dev_info.version.getD "3.4"⟩

/-- One value of the dict returned by `tinytuya.deviceScan`: the code reads
`dev["id"]` and `dev["ip"]`. -/
structure ScanEntry where
  id : String
  ip : String
deriving DecidableEq

/-- The raw result of `tinytuya.deviceScan(False, 10)`: a dict whose values
carry id and ip (its keys are, in tinytuya, the network addresses — the
model leaves them abstract strings). -/
abbrev ScanResults := List (String × ScanEntry)

/-- One iteration of the merge loop body:
`if dev_id in devices: devices[dev_id]["ip"] = dev["ip"]` — updates the
entry whose key is the id, leaves every other entry and the key set
unchanged (in particular a dict update never adds a key that was absent). -/
def setIpIfKnown : Catalog → String → String → Catalog
  | [], _, _ => []
  | (k, v) :: rest, theId, newIp =>
    (if k = theId then (k, DevInfo.setIp v newIp) else (k, v)) ::
      setIpIfKnown rest theId newIp

/-- The whole merge loop `for dev in results.values(): ...`, folding over
the scan-result values in order. -/
def mergeScan (devices : Catalog) (vals : List ScanEntry) : Catalog :=
  vals.foldl (fun acc dev => setIpIfKnown acc dev.id dev.ip) devices

/-- The return-map comprehension
`\x7bdev_id: devices[dev_id] for dev_id in results\x7d`: iterates over the
KEYS of the raw scan result and indexes `devices` with each; the first key
absent from `devices` raises `KeyError(key)`. -/
def buildReturn (devices : Catalog) : List String → Except PyErr Catalog
  | [] => Except.ok []
  | k :: ks =>
    match lookupKey devices k with
    | none => Except.error (PyErr.keyError k)
    | some v =>
      match buildReturn devices ks with
      | Except.error e => Except.error e
      | Except.ok rest => Except.ok ((k, v) :: rest)

/-- The mutable globals touched by a scan: the `devices` dict and the
`scanning` flag. -/
structure ScanState where
  devices : Catalog
  scanning : Bool
deriving DecidableEq

/-- What a call of `scan_devices()` produces: `busy` models `return False`,
`ok` the returned dict of devices with updated IPs, `raised` a propagated
exception (after the `finally` block has reset the flag). -/
inductive ScanRet where
  | busy
  | ok (result : Catalog)
  | raised (e : PyErr)
deriving DecidableEq

/-- `scan_devices()`.  `discovery` is the outcome of the external
`tinytuya.deviceScan(False, 10)` call.  If the flag is already set the call
returns `False` at once; otherwise it sets the flag, runs discovery, reloads
the catalog, merges discovered IPs into known entries, builds the return
map, and the `finally` block resets the flag on every non-busy path. -/
def scan_devices (file : FileContent) (discovery : Except PyErr ScanResults)
    (st : ScanState) : ScanState × ScanRet :=
  if st.scanning then (st, ScanRet.busy)
  else
    match discovery with
    | Except.error e => (⟨st.devices, false⟩, ScanRet.raised e)
    | Except.ok results =>
      match load_devices file with
      | Except.error e => (⟨st.devices, false⟩, ScanRet.raised e)
      | Except.ok loaded =>
        let merged := mergeScan loaded (results.map Prod.snd)
        match buildReturn merged (results.map Prod.fst) with
        | Except.error e => (⟨merged, false⟩, ScanRet.raised e)
        | Except.ok ret => (⟨merged, false⟩, ScanRet.ok ret)

/-- Outcome of the `/scan` route handler as observed by the HTTP client:
the status code, and whether this request executed the discovery
primitive. -/
structure RouteResult where
  status : Nat
  ranDiscovery : Bool
deriving DecidableEq

/-- `manual_scan()` (the `POST /scan` handler).  If `scan_lock` is held it
answers 400 at once.  Otherwise it acquires the lock and calls
`scan_devices()`; a falsy result (`False` from a busy scan, or an empty
dict) yields the 500 "already in progress or failed" answer; an exception
propagates out of the handler and Flask answers 500. -/
def manual_scan (lockHeld : Bool) (file : FileContent)
    (discovery : Except PyErr ScanResults) (st : ScanState) :
    ScanState × RouteResult :=
  if lockHeld then (st, ⟨400, false⟩)
  else
    match scan_devices file discovery st with
    | (st', ScanRet.busy) => (st', ⟨500, false⟩)
    | (st', ScanRet.ok result) =>
      if result.isEmpty then (st', ⟨500, true⟩) else (st', ⟨200, true⟩)
    | (st', ScanRet.raised _) => (st', ⟨500, true⟩)

/-- Outcome of one iteration of the periodic loop body (a `scan_devices()`
call followed by `time.sleep(300)`): it either completes or raises. -/
inductive IterOut where
  | ok
  | raises (e : PyErr)
deriving DecidableEq

/-- Final observation of the background thread after a prescribed list of
iteration outcomes: how many iterations completed, and the exception that
ended the thread, if any. -/
structure ThreadResult where
  iters : Nat
  exited : Option PyErr
deriving DecidableEq

/-- `scan_devices_periodically()`: `while True: ...` with no exception
handler in the loop, so the first raising iteration propagates out of the
loop and ends the thread — later iterations never run (no retry). -/
def scan_devices_periodically : List IterOut → ThreadResult
  | [] => ⟨0, none⟩
  | IterOut.ok :: rest =>
    let r := scan_devices_periodically rest
    ⟨r.iters + 1, r.exited⟩
  | IterOut.raises e :: _ => ⟨0, some e⟩

/-- The whole process: the Flask server in the main thread plus the scanner
thread started by `threading.Thread(target=scan_devices_periodically,
daemon=True).start()`.  Per Python threading semantics an unhandled
exception in a thread's target terminates only that thread; the interpreter
and the request-serving main thread keep running. -/
structure ProcessState where
  serverRunning : Bool
  scanner : ThreadResult
deriving DecidableEq

/-- Run the process with the scanner thread experiencing the given
iteration outcomes: the server keeps running whatever happens in the
daemon scanner thread. -/
def runProcess (outs : List IterOut) : ProcessState :=
  ⟨true, scan_devices_periodically outs⟩

/-!
Interleaving model of the flag claim in `scan_devices`.  The claim phase is
two separate atomic actions on the shared `scanning` flag:
`if scanning: return False` (a read) and `scanning = True` (a write); the
scan body then runs and the `finally` block clears the flag.  Two threads
(a manual trigger and the periodic trigger) each run this program; a
schedule chooses which thread takes the next step.
-/

/-- Program counter of one thread running the claim phase of
`scan_devices`: about to test the flag, about to set it, inside the scan
body, or done (`ran` records whether it reached the body). -/
inductive TPos where
  | atCheck
  | atSet
  | inScan
  | done (ran : Bool)
deriving DecidableEq

/-- Shared flag plus the two thread positions. -/
structure RaceState where
  scanning : Bool
  t0 : TPos
  t1 : TPos
deriving DecidableEq

/-- One atomic step of a thread: test the flag (returning `False` when it
is set), set the flag, or finish the body (the `finally` clears the flag). -/
def stepThread (scanning : Bool) : TPos → Bool × TPos
  | TPos.atCheck =>
    if scanning then (scanning, TPos.done false) else (scanning, TPos.atSet)
  | TPos.atSet => (true, TPos.inScan)
  | TPos.inScan => (false, TPos.done true)
  | TPos.done r => (scanning, TPos.done r)

/-- Let the chosen thread (`false` = thread 0, `true` = thread 1) take one
step. -/
def stepRace (s : RaceState) (which : Bool) : RaceState :=
  if which then
    let p := stepThread s.scanning s.t1
    ⟨p.1, s.t0, p.2⟩
  else
    let p := stepThread s.scanning s.t0
    ⟨p.1, p.2, s.t1⟩

/-- Run a schedule of steps. -/
def runRace (s : RaceState) : List Bool → RaceState
  | [] => s
  | w :: ws => runRace (stepRace s w) ws

/-- Both triggers start at the flag test with no scan running. -/
def raceInit : RaceState := ⟨false, TPos.atCheck, TPos.atCheck⟩

/-!
Device-control payloads for the `/on` and `/toggle` routes.
-/

/-- A JSON value as stored under the `dps` mapping of a status payload. -/
inductive PyVal where
  | vBool (b : Bool)
  | vStr (s : String)
  | vInt (n : Int)
  | vNone
deriving DecidableEq

/-- Python truthiness of such a value. -/
def PyVal.truthy : PyVal → Bool
  | PyVal.vBool b => b
  | PyVal.vStr s => !s.isEmpty
  | PyVal.vInt n => n != 0
  | PyVal.vNone => false

/-- A `d.status()` payload: possibly carrying a `dps` mapping. -/
structure StatusPayload where
  dps : Option (List (String × PyVal))
deriving DecidableEq

/-- Truthiness of `status.get("dps", dict()).get("1")`: a missing `dps`
mapping or missing key `"1"` is falsy (`None`), otherwise the stored
value's truthiness. -/
def onIndicator (st : StatusPayload) : Bool :=
  match lookupKey (st.dps.getD []) "1" with
  | none => false
  | some v => PyVal.truthy v

/-- The command the toggle route sends to the device-control client. -/
inductive Command where
  | turnOnCmd
  | turnOffCmd
deriving DecidableEq

/-- What `toggle` does once the device resolved and `status()` returned:
the command issued and the result string of the JSON body. -/
structure ToggleResult where
  cmd : Command
  result : String
deriving DecidableEq

/-- The branch of the `toggle` handler on `current = status.get("dps",
dict()).get("1")`: truthy turns the device off, falsy turns it on. -/
def toggle_action (status : StatusPayload) : ToggleResult :=
  if onIndicator status then ⟨Command.turnOffCmd, "Device toggled OFF"⟩
  else ⟨Command.turnOnCmd, "Device toggled ON"⟩

/-- The `POST /toggle` handler up to the device-control call: resolve, then
branch on the status indicator (device I/O outcomes other than the given
status payload are out of scope). -/
def toggle_route (file : FileContent) (dev_id : String)
    (status : StatusPayload) : Except PyErr ToggleResult :=
  match get_device_instance file dev_id none with
  | Except.error e => Except.error e
  | Except.ok _ => Except.ok (toggle_action status)

/-- The `GET /on` handler: resolve, then `bool(status.get("dps",
dict()).get("1"))` as the `on` field of the JSON body. -/
def is_on_route (file : FileContent) (dev_id : String)
    (status : StatusPayload) : Except PyErr Bool :=
  match get_device_instance file dev_id none with
  | Except.error e => Except.error e
  | Except.ok _ => Except.ok (onIndicator status)

/-!
Concrete inputs used by witnesses and counterexamples.
-/

/-- Entry named "lamp" with a recorded ip. -/
def entryLamp : DevInfo := ⟨some "lamp", some "10.0.0.5", some "k", none⟩

/-- Catalog mapping id "A" to the lamp entry. -/
def catalogLamp : Catalog := [("A", entryLamp)]

/-- A devices file holding `catalogLamp`. -/
def fileLamp : FileContent := FileContent.parsed catalogLamp

/-- Entry named "lamp" with no recorded ip. -/
def entryNoIp : DevInfo := ⟨some "lamp", none, some "k", none⟩

/-- A devices file mapping "A" to an entry without an ip. -/
def fileNoIp : FileContent := FileContent.parsed [("A", entryNoIp)]

/-- A discovery outcome observing device "A" at 10.0.0.5, keyed by the id. -/
def scanA : Except PyErr ScanResults := Except.ok [("A", ⟨"A", "10.0.0.5"⟩)]

/-- A devices file whose entry for "A" is the empty dict. -/
def fileEmptyEntry : FileContent := FileContent.parsed [("A", ⟨none, none, none, none⟩)]

/-- Catalog with two entries, "A" (with a prior cached ip) and "X". -/
def catalogMerge : Catalog :=
  [("A", ⟨some "lamp", some "10.0.0.1", some "k", none⟩),
   ("X", ⟨some "plug", none, some "kx", none⟩)]

/-- A devices file holding `catalogMerge`. -/
def fileMerge : FileContent := FileContent.parsed catalogMerge

/-- A scan result whose values carry ids "A" (known) and "B" (unknown). -/
def resultsMerge : ScanResults :=
  [("A", ⟨"A", "10.0.0.5"⟩), ("X", ⟨"B", "1.2.3.4"⟩)]

/-- A status payload whose indicator at dps key "1" is falsy. -/
def stOff : StatusPayload := ⟨some [("1", PyVal.vBool false)]⟩

/-- A status payload whose indicator at dps key "1" is truthy. -/
def stOn : StatusPayload := ⟨some [("1", PyVal.vBool true)]⟩

/-!
Helper lemmas about the merge loop and the return-map comprehension.
-/

theorem lookupKey_setIpIfKnown (c : Catalog) (i p j : String) :
    lookupKey (setIpIfKnown c i p) j =
      if j = i then Option.map (fun d => DevInfo.setIp d p) (lookupKey c j)
      else lookupKey c j := by
  induction c with
  | nil => simp [setIpIfKnown, lookupKey]
  | cons hd rest ih =>
    obtain ⟨k, v⟩ := hd
    simp only [setIpIfKnown]
    by_cases hki : k = i
    · subst hki
      rw [if_pos rfl]
      by_cases hkj : k = j
      · subst hkj
        simp [lookupKey]
      · have hjk : ¬ j = k := fun h => hkj h.symm
        simp [lookupKey, hkj, hjk, ih]
    · rw [if_neg hki]
      by_cases hkj : k = j
      · subst hkj
        have hji : ¬ k = i := hki
        simp [lookupKey, hji]
      · simp [lookupKey, hki, hkj, ih]

theorem mergeScan_nil (c : Catalog) : mergeScan c [] = c := rfl

theorem mergeScan_cons (c : Catalog) (e : ScanEntry) (rest : List ScanEntry) :
    mergeScan c (e :: rest) = mergeScan (setIpIfKnown c e.id e.ip) rest := rfl

theorem mergeScan_append (c : Catalog) (l₁ l₂ : List ScanEntry) :
    mergeScan c (l₁ ++ l₂) = mergeScan (mergeScan c l₁) l₂ :=
  List.foldl_append _ _ _ _

theorem lookupKey_mergeScan_none (vals : List ScanEntry) :
    ∀ (c : Catalog) (i : String), lookupKey c i = none →
      lookupKey (mergeScan c vals) i = none := by
  induction vals with
  | nil => intro c i h; exact h
  | cons e rest ih =>
    intro c i h
    rw [mergeScan_cons]
    apply ih
    rw [lookupKey_setIpIfKnown, h]
    split <;> rfl

theorem lookupKey_mergeScan_isSome (vals : List ScanEntry) :
    ∀ (c : Catalog) (i : String),
      (lookupKey (mergeScan c vals) i).isSome = (lookupKey c i).isSome := by
  induction vals with
  | nil => intro c i; rfl
  | cons e rest ih =>
    intro c i
    rw [mergeScan_cons, ih, lookupKey_setIpIfKnown]
    split
    · cases lookupKey c i <;> rfl
    · rfl

theorem lookupKey_mergeScan_untouched (vals : List ScanEntry) :
    ∀ (c : Catalog) (i : String), (∀ x ∈ vals, x.id ≠ i) →
      lookupKey (mergeScan c vals) i = lookupKey c i := by
  induction vals with
  | nil => intro c i _; rfl
  | cons e rest ih =>
    intro c i h
    rw [mergeScan_cons, ih _ _ (fun x hx => h x (List.mem_cons_of_mem _ hx)),
      lookupKey_setIpIfKnown]
    have hie : ¬ i = e.id := fun hc => h e (List.mem_cons_self _ _) hc.symm
    simp [hie]

theorem lookupKey_mergeScan_last (c : Catalog) (i : String) (l₁ l₂ : List ScanEntry)
    (e : ScanEntry) (he : e.id = i) (hsome : (lookupKey c i).isSome)
    (hl₂ : ∀ x ∈ l₂, x.id ≠ i) :
    Option.map DevInfo.ip (lookupKey (mergeScan c (l₁ ++ e :: l₂)) i) =
      some (some e.ip) := by
  rw [mergeScan_append, mergeScan_cons,
    lookupKey_mergeScan_untouched l₂ _ _ hl₂, lookupKey_setIpIfKnown,
    if_pos he.symm]
  have hsome₁ : (lookupKey (mergeScan c l₁) i).isSome = true := by
    rw [lookupKey_mergeScan_isSome]; exact hsome
  obtain ⟨d, hd⟩ := Option.isSome_iff_exists.mp hsome₁
  rw [hd]
  rfl

theorem buildReturn_error_of_missing (ks : List String) :
    ∀ (d : Catalog) (k : String), k ∈ ks → lookupKey d k = none →
      ∃ k', buildReturn d ks = Except.error (PyErr.keyError k') := by
  induction ks with
  | nil => intro d k h; exact absurd h (List.not_mem_nil k)
  | cons k₀ rest ih =>
    intro d k hk habs
    rcases h0 : lookupKey d k₀ with _ | v
    · exact ⟨k₀, by simp [buildReturn, h0]⟩
    · rcases List.mem_cons.mp hk with h | h
      · subst h
        rw [habs] at h0
        exact absurd h0 (Option.noConfusion)
      · obtain ⟨k', hk'⟩ := ih d k h habs
        exact ⟨k', by simp [buildReturn, h0, hk']⟩

/-- With the flag clear, a well-formed file and a successful discovery, the
devices dict after `scan_devices` is the reloaded catalog with the scan's
IPs merged in, and the flag is clear — whatever the return-map comprehension
does. -/
theorem scan_devices_state_eq (file : FileContent) (loaded : Catalog)
    (results : ScanResults) (st : ScanState)
    (hscan : st.scanning = false) (hfile : parseFile file = Except.ok loaded) :
    (scan_devices file (Except.ok results) st).1 =
      ⟨mergeScan loaded (results.map Prod.snd), false⟩ := by
  simp only [scan_devices, hscan, load_devices, hfile, Bool.false_eq_true,
    if_false]
  rcases buildReturn (mergeScan loaded (results.map Prod.snd))
      (results.map Prod.fst) with e | ret <;> simp

/-- A call that finds the flag set returns `False` at once, with the state
untouched. -/
theorem scan_devices_busy_of_flag (file : FileContent)
    (discovery : Except PyErr ScanResults) (st : ScanState)
    (h : st.scanning = true) :
    scan_devices file discovery st = (st, ScanRet.busy) := by
  simp [scan_devices, h]

/-- A call that runs (flag initially clear) always ends with the flag
clear: the `finally` block resets it on the success path and on every
raising path. -/
theorem scan_devices_flag_clear (file : FileContent)
    (discovery : Except PyErr ScanResults) (st : ScanState)
    (h : st.scanning = false) :
    ((scan_devices file discovery st).1).scanning = false := by
  rcases discovery with e | results
  · simp [scan_devices, h]
  · rcases hld : load_devices file with e | loaded
    · simp [scan_devices, h, hld]
    · rcases hbr : buildReturn (mergeScan loaded (results.map Prod.snd))
          (results.map Prod.fst) with e | ret <;>
        simp [scan_devices, h, hld, hbr]

/-!
Claim theorems.
-/

/-- C1 (code bug): evaluation at the failing input.  With a catalog file
mapping "A" to an entry without an ip, a completed scan observes
("A", "10.0.0.5"), merges it into the in-memory dict (first conjunct: the
scan returns the updated entry and leaves the ip in the devices state), yet
the very next resolution of "A" reloads the catalog from the file and
raises `RuntimeError` instead of using the discovered address (second
conjunct) — the reload discards every scan-discovered ip, contradicting the
claim (and the source's own comment that the IP comes from the scan). -/
theorem scan_ip_discarded_by_reload :
    scan_devices fileNoIp scanA ⟨[], false⟩ =
      (⟨[("A", ⟨some "lamp", some "10.0.0.5", some "k", none⟩)], false⟩,
       ScanRet.ok [("A", ⟨some "lamp", some "10.0.0.5", some "k", none⟩)])
    ∧ get_device_instance fileNoIp "A" none =
      Except.error (PyErr.runtimeError "No IP for device A") := by
  exact ⟨by decide, by decide⟩

/-- C3 (counterexample): the catalog maps id "A" to an entry whose display
name is "lamp" and whose recorded location is "10.0.0.5", yet resolving
"lamp" raises `KeyError` rather than returning a handle with ip
"10.0.0.5" — the resolver never searches entries by display name. -/
theorem resolve_ignores_display_name :
    lookupKey catalogLamp "A" = some ⟨some "lamp", some "10.0.0.5", some "k", none⟩
    ∧ get_device_instance fileLamp "lamp" none =
      Except.error (PyErr.keyError "Device ID lamp not found") := by
  exact ⟨by decide, by decide⟩

/-- C3 (amended): resolution reloads the catalog and uses the identifier
solely as a deviceId — an identifier that is not a catalog key fails with
`KeyError` no matter which display names the entries carry — and on the
catalog mapping "A" to the entry named "lamp" at "10.0.0.5", resolving "A"
returns a handle with ip "10.0.0.5" while resolving "lamp" fails. -/
theorem resolve_by_device_id_only (file : FileContent) (c : Catalog) (i : String)
    (hfile : parseFile file = Except.ok c) (hnone : lookupKey c i = none) :
    get_device_instance file i none =
      Except.error (PyErr.keyError ("Device ID " ++ i ++ " not found"))
    ∧ get_device_instance fileLamp "A" none =
      Except.ok ⟨"A", "10.0.0.5", "k", "3.4"⟩
    ∧ get_device_instance fileLamp "lamp" none =
      Except.error (PyErr.keyError "Device ID lamp not found") := by
  refine ⟨?_, by decide, by decide⟩
  simp [get_device_instance, load_devices, hfile, hnone]

/-- Witness for `resolve_by_device_id_only` at the concrete catalog. -/
theorem resolve_by_device_id_only_witness :
    get_device_instance fileLamp "B" none =
      Except.error (PyErr.keyError ("Device ID " ++ "B" ++ " not found"))
    ∧ get_device_instance fileLamp "A" none =
      Except.ok ⟨"A", "10.0.0.5", "k", "3.4"⟩
    ∧ get_device_instance fileLamp "lamp" none =
      Except.error (PyErr.keyError "Device ID lamp not found") :=
  resolve_by_device_id_only fileLamp catalogLamp "B" rfl (by decide)

/-- C4 (counterexample): with the periodic scan in progress (the scanning
flag set) and the manual-scan lock free, a `POST /scan` request is answered
with status 500, not 400 — though no second discovery is executed. -/
theorem manual_scan_periodic_busy_is_500 :
    manual_scan false fileLamp scanA ⟨[], true⟩ = (⟨[], true⟩, ⟨500, false⟩) := by
  decide

/-- C4 (amended): a `POST /scan` that arrives while another manual scan
holds the lock is answered 400; one that arrives while a scan is in
progress with the lock free (the periodic scanner) is answered 500 via the
busy-or-failed branch; in both cases the handler does not execute a second
discovery operation. -/
theorem manual_scan_busy_responses :
    (∀ (file : FileContent) (discovery : Except PyErr ScanResults) (st : ScanState),
        manual_scan true file discovery st = (st, ⟨400, false⟩))
    ∧ (∀ (file : FileContent) (discovery : Except PyErr ScanResults) (st : ScanState),
        st.scanning = true → manual_scan false file discovery st = (st, ⟨500, false⟩)) := by
  constructor
  · intro file discovery st
    rfl
  · intro file discovery st h
    simp [manual_scan, scan_devices_busy_of_flag file discovery st h]

/-- Witness for `manual_scan_busy_responses` at concrete states. -/
theorem manual_scan_busy_responses_witness :
    manual_scan true fileLamp scanA ⟨[], false⟩ = (⟨[], false⟩, ⟨400, false⟩)
    ∧ manual_scan false fileLamp scanA ⟨[], true⟩ = (⟨[], true⟩, ⟨500, false⟩) :=
  ⟨manual_scan_busy_responses.1 fileLamp scanA ⟨[], false⟩,
   manual_scan_busy_responses.2 fileLamp scanA ⟨[], true⟩ rfl⟩

/-- C5 (counterexample): an iteration of the periodic loop raises, the
loop ends with that exception — and the process keeps serving requests
(`serverRunning = true`), because the loop runs in a daemon thread whose
unhandled exception terminates only the thread.  The claim that the
failure is fatal to the whole process is false of this source. -/
theorem periodic_failure_spares_process :
    runProcess [IterOut.raises (PyErr.runtimeError "boom")] =
      ⟨true, ⟨0, some (PyErr.runtimeError "boom")⟩⟩ := by
  decide

/-- C5 (amended): an otherwise-unhandled failure in an iteration of the
periodic scan loop propagates out of the loop — exactly the iterations
before it complete, it is not logged and retried — and terminates the
scanner thread with that exception, while the process itself keeps
serving. -/
theorem periodic_failure_ends_thread_only (pre post : List IterOut) (e : PyErr)
    (hpre : ∀ o ∈ pre, o = IterOut.ok) :
    scan_devices_periodically (pre ++ IterOut.raises e :: post) = ⟨pre.length, some e⟩
    ∧ (runProcess (pre ++ IterOut.raises e :: post)).serverRunning = true := by
  constructor
  · induction pre with
    | nil => rfl
    | cons o rest ih =>
      have ho : o = IterOut.ok := hpre o (List.mem_cons_self _ _)
      subst ho
      have hr := ih (fun x hx => hpre x (List.mem_cons_of_mem _ hx))
      simp [scan_devices_periodically, hr]
  · rfl

/-- Witness for `periodic_failure_ends_thread_only` at a concrete
iteration trace. -/
theorem periodic_failure_ends_thread_only_witness :
    scan_devices_periodically [IterOut.ok, IterOut.raises PyErr.osError] =
      ⟨1, some PyErr.osError⟩
    ∧ (runProcess [IterOut.ok, IterOut.raises PyErr.osError]).serverRunning = true :=
  periodic_failure_ends_thread_only [IterOut.ok] [] PyErr.osError (by decide)

/-- C6: a catalog load that fails — file missing or unreadable (`OSError`)
or not well-formed (`JSONDecodeError`) — leaves the previously loaded
`devices` dict exactly as it was and surfaces the exception to the caller:
the assignment `devices = json.load(f)` only happens after a successful
parse, so no partial or empty catalog is ever installed by a failed
load. -/
theorem load_failure_preserves_catalog (file : FileContent) (prev : Catalog)
    (e : PyErr) (h : parseFile file = Except.error e) :
    load_devices_state file prev = (prev, some e) := by
  simp [load_devices_state, h]

/-- Witness for `load_failure_preserves_catalog` on a malformed file. -/
theorem load_failure_preserves_catalog_witness :
    load_devices_state FileContent.malformed catalogLamp =
      (catalogLamp, some PyErr.jsonDecodeError) :=
  load_failure_preserves_catalog FileContent.malformed catalogLamp
    PyErr.jsonDecodeError rfl

/-- C2 (counterexample): the claim of the scanning flag is a separate test
(`if scanning: return False`) and set (`scanning = True`), not an atomic
test-and-set: starting from the not-scanning state, the four-step schedule
check₀, check₁, set₀, set₁ lets both triggers observe "not scanning" and
both reach the discovery body at the same instant. -/
theorem flag_claim_race_reachable :
    raceInit.scanning = false
    ∧ (runRace raceInit [false, true, false, true]).t0 = TPos.inScan
    ∧ (runRace raceInit [false, true, false, true]).t1 = TPos.inScan := by
  decide

/-- C2 (amended): the flag claim is a non-atomic check-then-set, so
interleavings exist in which two concurrent triggers both execute the
discovery primitive; what does hold is: a trigger that observes the flag
set returns the `AlreadyInProgress` outcome at once without scanning and
without touching the flag (first conjunct, in the interleaving model;
second conjunct, for `scan_devices` itself), and once a scan that actually
ran completes, the flag is false again regardless of success or failure
(third conjunct, the `finally` block). -/
theorem scan_flag_busy_and_reset :
    (∀ s : RaceState, s.scanning = true → s.t0 = TPos.atCheck →
        stepRace s false = ⟨s.scanning, TPos.done false, s.t1⟩)
    ∧ (∀ (file : FileContent) (discovery : Except PyErr ScanResults) (st : ScanState),
        st.scanning = true → scan_devices file discovery st = (st, ScanRet.busy))
    ∧ (∀ (file : FileContent) (discovery : Except PyErr ScanResults) (st : ScanState),
        st.scanning = false → ((scan_devices file discovery st).1).scanning = false) := by
  refine ⟨?_, ?_, ?_⟩
  · intro s h1 h2
    simp [stepRace, stepThread, h1, h2]
  · intro file discovery st h
    exact scan_devices_busy_of_flag file discovery st h
  · intro file discovery st h
    exact scan_devices_flag_clear file discovery st h

/-- Witness for `scan_flag_busy_and_reset` at concrete states. -/
theorem scan_flag_busy_and_reset_witness :
    stepRace ⟨true, TPos.atCheck, TPos.atCheck⟩ false =
      ⟨true, TPos.done false, TPos.atCheck⟩
    ∧ scan_devices fileLamp scanA ⟨[], true⟩ = (⟨[], true⟩, ScanRet.busy)
    ∧ ((scan_devices fileLamp scanA ⟨[], false⟩).1).scanning = false :=
  ⟨scan_flag_busy_and_reset.1 ⟨true, TPos.atCheck, TPos.atCheck⟩ rfl rfl,
   scan_flag_busy_and_reset.2.1 fileLamp scanA ⟨[], true⟩ rfl,
   scan_flag_busy_and_reset.2.2 fileLamp scanA ⟨[], false⟩ rfl⟩

/-- C7: after a scan run on a reloaded catalog, a discovered (id, ip) pair
whose id is a catalog key overwrites any prior cached ip of that entry
(second conjunct: the last discovered pair for the id determines the stored
ip), and an id that is not a catalog key gets no location entry (first
conjunct: it is still absent after the merge). -/
theorem scan_merge_correct (file : FileContent) (loaded : Catalog)
    (results : ScanResults) (st : ScanState)
    (hscan : st.scanning = false) (hfile : parseFile file = Except.ok loaded) :
    (∀ i : String, lookupKey loaded i = none →
        lookupKey ((scan_devices file (Except.ok results) st).1.devices) i = none)
    ∧ (∀ (i : String) (l₁ l₂ : ScanResults) (k : String) (e : ScanEntry),
        e.id = i → results = l₁ ++ (k, e) :: l₂ →
        (∀ x ∈ l₂, x.2.id ≠ i) → (lookupKey loaded i).isSome →
        Option.map DevInfo.ip
            (lookupKey ((scan_devices file (Except.ok results) st).1.devices) i) =
          some (some e.ip)) := by
  rw [scan_devices_state_eq file loaded results st hscan hfile]
  constructor
  · intro i h
    exact lookupKey_mergeScan_none _ _ _ h
  · intro i l₁ l₂ k e he hres hl₂ hsome
    subst hres
    have hmap : (l₁ ++ (k, e) :: l₂).map Prod.snd =
        l₁.map Prod.snd ++ e :: l₂.map Prod.snd := by
      simp
    rw [hmap]
    apply lookupKey_mergeScan_last _ _ _ _ _ he hsome
    intro x hx
    obtain ⟨p, hp, hpx⟩ := List.mem_map.mp hx
    subst hpx
    exact hl₂ p hp

/-- Witness for `scan_merge_correct`: scanning the two-entry catalog with a
result carrying known id "A" (fresh ip 10.0.0.5, overwriting the cached
10.0.0.1) and unknown id "B" (ignored). -/
theorem scan_merge_correct_witness :
    lookupKey ((scan_devices fileMerge (Except.ok resultsMerge) ⟨[], false⟩).1.devices) "B" = none
    ∧ Option.map DevInfo.ip
        (lookupKey ((scan_devices fileMerge (Except.ok resultsMerge) ⟨[], false⟩).1.devices) "A") =
      some (some "10.0.0.5") := by
  have h := scan_merge_correct fileMerge catalogMerge resultsMerge ⟨[], false⟩ rfl rfl
  exact ⟨h.1 "B" (by decide),
    h.2 "A" [] [("X", ⟨"B", "1.2.3.4"⟩)] "A" ⟨"A", "10.0.0.5"⟩ rfl rfl
      (by decide) (by decide)⟩

/-- C8 (counterexample): the catalog maps "A" to an empty entry object — an
identifier that matches a catalog entry having no recorded location — yet
resolution fails with the `KeyError` "not found" kind rather than the
`RuntimeError` "no IP" kind, because `if not dev_info` treats the falsy
empty dict like a missing id. -/
theorem empty_entry_resolves_not_found :
    lookupKey [("A", (⟨none, none, none, none⟩ : DevInfo))] "A" =
      some ⟨none, none, none, none⟩
    ∧ get_device_instance fileEmptyEntry "A" none =
      Except.error (PyErr.keyError "Device ID A not found") := by
  exact ⟨by decide, by decide⟩

/-- C8 (amended): an identifier matching no catalog entry fails with the
`KeyError` not-found kind; an identifier matching a NON-EMPTY catalog entry
whose recorded location is absent or empty fails with the `RuntimeError`
no-IP kind; the two kinds are distinct constructors, distinguishable to the
caller.  (An empty entry object is the one exception: it is reported as
not found.) -/
theorem resolver_error_kinds (file : FileContent) (c : Catalog) (i : String)
    (hfile : parseFile file = Except.ok c) :
    (lookupKey c i = none →
        get_device_instance file i none =
          Except.error (PyErr.keyError ("Device ID " ++ i ++ " not found")))
    ∧ (∀ d : DevInfo, lookupKey c i = some d → d.isFalsy = false →
        optStrFalsy d.ip = true →
        get_device_instance file i none =
          Except.error (PyErr.runtimeError ("No IP for device " ++ i)))
    ∧ (∀ m₁ m₂ : String, PyErr.keyError m₁ ≠ PyErr.runtimeError m₂) := by
  refine ⟨?_, ?_, ?_⟩
  · intro h
    simp [get_device_instance, load_devices, hfile, h]
  · intro d hd hfalsy hip
    have hpy : pyOr none d.ip = d.ip := rfl
    simp [get_device_instance, load_devices, hfile, hd, hfalsy, hpy, hip]
  · intro m₁ m₂ hc
    exact PyErr.noConfusion hc

/-- Witness for `resolver_error_kinds`: unknown id "B" and located-less
known id "A" on the ip-less catalog. -/
theorem resolver_error_kinds_witness :
    get_device_instance fileNoIp "B" none =
      Except.error (PyErr.keyError ("Device ID " ++ "B" ++ " not found"))
    ∧ get_device_instance fileNoIp "A" none =
      Except.error (PyErr.runtimeError ("No IP for device " ++ "A"))
    ∧ PyErr.keyError "x" ≠ PyErr.runtimeError "y" :=
  ⟨(resolver_error_kinds fileNoIp [("A", entryNoIp)] "B" rfl).1 (by decide),
   (resolver_error_kinds fileNoIp [("A", entryNoIp)] "A" rfl).2.1 entryNoIp
     (by decide) (by decide) (by decide),
   (resolver_error_kinds fileNoIp [("A", entryNoIp)] "A" rfl).2.2 "x" "y"⟩

/-- C9: for a resolvable device, when the status indicator at dps key "1"
is falsy the toggle route issues `turn_on` and answers "Device toggled ON"
while the `/on` GET answers on = false; when the indicator is truthy the
toggle route issues `turn_off` and answers "Device toggled OFF" while the
`/on` GET answers on = true. -/
theorem toggle_and_is_on_by_indicator (file : FileContent) (dev_id : String)
    (status : StatusPayload) (h : DeviceHandle)
    (hres : get_device_instance file dev_id none = Except.ok h) :
    (onIndicator status = false →
        toggle_route file dev_id status =
          Except.ok ⟨Command.turnOnCmd, "Device toggled ON"⟩
        ∧ is_on_route file dev_id status = Except.ok false)
    ∧ (onIndicator status = true →
        toggle_route file dev_id status =
          Except.ok ⟨Command.turnOffCmd, "Device toggled OFF"⟩
        ∧ is_on_route file dev_id status = Except.ok true) := by
  constructor <;> intro hind <;>
    exact ⟨by simp [toggle_route, hres, toggle_action, hind],
      by simp [is_on_route, hres, hind]⟩

/-- Witness for `toggle_and_is_on_by_indicator` on the resolvable device
"A" with a falsy and a truthy indicator. -/
theorem toggle_and_is_on_by_indicator_witness :
    (toggle_route fileLamp "A" stOff =
        Except.ok ⟨Command.turnOnCmd, "Device toggled ON"⟩
      ∧ is_on_route fileLamp "A" stOff = Except.ok false)
    ∧ (toggle_route fileLamp "A" stOn =
        Except.ok ⟨Command.turnOffCmd, "Device toggled OFF"⟩
      ∧ is_on_route fileLamp "A" stOn = Except.ok true) :=
  ⟨(toggle_and_is_on_by_indicator fileLamp "A" stOff ⟨"A", "10.0.0.5", "k", "3.4"⟩
      (by decide)).1 (by decide),
   (toggle_and_is_on_by_indicator fileLamp "A" stOn ⟨"A", "10.0.0.5", "k", "3.4"⟩
      (by decide)).2 (by decide)⟩

/-- C10: when the raw discovery result contains a key that is not a key of
the (reloaded, merged) devices dict, the return-map comprehension raises a
`KeyError` — the scan call ends with a raised exception instead of the
discovered-devices map — and the `finally` block still resets the scanning
flag to false. -/
theorem scan_unknown_key_raises (file : FileContent) (c : Catalog)
    (results : ScanResults) (st : ScanState) (k : String)
    (hscan : st.scanning = false) (hfile : parseFile file = Except.ok c)
    (hk : k ∈ results.map Prod.fst) (habs : lookupKey c k = none) :
    (∃ k', (scan_devices file (Except.ok results) st).2 =
        ScanRet.raised (PyErr.keyError k'))
    ∧ ((scan_devices file (Except.ok results) st).1).scanning = false := by
  constructor
  · have hmerged : lookupKey (mergeScan c (results.map Prod.snd)) k = none :=
      lookupKey_mergeScan_none _ _ _ habs
    obtain ⟨k', hk'⟩ :=
      buildReturn_error_of_missing (results.map Prod.fst) _ k hk hmerged
    refine ⟨k', ?_⟩
    simp [scan_devices, hscan, load_devices, hfile, hk']
  · exact scan_devices_flag_clear file (Except.ok results) st hscan

/-- Witness for `scan_unknown_key_raises`: a result keyed (as tinytuya keys
it) by the network address "192.168.0.9", which is not a device id. -/
theorem scan_unknown_key_raises_witness :
    (∃ k', (scan_devices fileNoIp
        (Except.ok [("192.168.0.9", ⟨"A", "192.168.0.9"⟩)]) ⟨[], false⟩).2 =
        ScanRet.raised (PyErr.keyError k'))
    ∧ ((scan_devices fileNoIp
        (Except.ok [("192.168.0.9", ⟨"A", "192.168.0.9"⟩)]) ⟨[], false⟩).1).scanning = false :=
  scan_unknown_key_raises fileNoIp [("A", entryNoIp)]
    [("192.168.0.9", ⟨"A", "192.168.0.9"⟩)] ⟨[], false⟩ "192.168.0.9"
    rfl rfl (by decide) (by decide)

end TuyaTinyWeb
